import Mathlib

/-!
Verification development for the `pydial` SSDP/DIAL discovery responder
(`src/pydial/server.py`, `src/pydial/common.py`).

The Python code is shallowly embedded: strings are `String`/`List Char`,
the per-request handler becomes a pure function from the raw datagram to an
outcome value, and the announcer / stop logic becomes explicit state
passing.  Each definition mirrors one piece of the source, named after it
where Lean allows.
-/

/-! ## Python string primitives

`str.strip()`, `str.split('\r\n')`, `str.split(':', 1)` and `int(...)`
as used by `SSDPHandler.handle`. -/

/-- The characters Python's parameterless `str.strip()` removes. -/
def isPySpace (c : Char) : Bool :=
  c = ' ' || c = '\t' || c = '\n' || c = '\r' || c = '\x0b' || c = '\x0c'

/-- Python `s.strip()`: drop whitespace from both ends. -/
def stripList (l : List Char) : List Char :=
  ((l.dropWhile isPySpace).reverse.dropWhile isPySpace).reverse

/-- Python `s.split('\r\n')`: split on every non-overlapping occurrence of
the two-character separator, left to right.  Always returns at least one
chunk (`''.split('\r\n') == ['']`). -/
def splitCRLF : List Char → List (List Char)
  | [] => [[]]
  | [c] => [[c]]
  | c :: d :: rest =>
    if c = '\r' ∧ d = '\n' then [] :: splitCRLF rest
    else
      match splitCRLF (d :: rest) with
      | [] => [[c]]
      | h :: t => (c :: h) :: t

/-- Python `line.split(':', 1)` unpacked into a pair: `some (field, value)`
when the line contains a colon, `none` when it does not (in which case the
Python tuple unpacking `field, val = line.split(':', 1)` raises
`ValueError`). -/
def splitFirstColon : List Char → Option (List Char × List Char)
  | [] => none
  | c :: rest =>
    if c = ':' then some ([], rest)
    else
      match splitFirstColon rest with
      | none => none
      | some (f, v) => some (c :: f, v)

/-- Decimal value of a digit list (most significant first). -/
def digitsVal (l : List Char) : Nat :=
  l.foldl (fun acc c => 10 * acc + (c.toNat - '0'.toNat)) 0

/-- Nonempty all-digit list parsed to a `Nat`. -/
def parseDigits (l : List Char) : Option Nat :=
  if l ≠ [] ∧ l.all Char.isDigit then some (digitsVal l) else none

/-- Python 2 `int(s)` on an already-stripped string: an optional sign
followed by one or more decimal digits; anything else raises `ValueError`
(modelled as `none`). -/
def parseIntPy (l : List Char) : Option Int :=
  match l with
  | '+' :: rest => (parseDigits rest).map (fun n => (n : Int))
  | '-' :: rest => (parseDigits rest).map (fun n => -(n : Int))
  | _ => (parseDigits l).map (fun n => (n : Int))

/-! ## Protocol constants (`common.py` and module-level `server.py`) -/

/-- `SSDP_ADDR = "239.255.255.250"` (`common.py`). -/
def SSDP_ADDR : String := "239.255.255.250"

/-- `SSDP_PORT = 1900` (`common.py`). -/
def SSDP_PORT : Nat := 1900

/-- `SSDP_NT`: the fixed DIAL search target (`common.py`). -/
def SSDP_NT : String := "urn:dial-multiscreen-org:service:dial:1"

/-- `UPNP_SEARCH`: the canonical search-request line (`server.py`). -/
def UPNP_SEARCH : String := "M-SEARCH * HTTP/1.1"

/-- `CACHE_DEFAULT = 1800` (`server.py`). -/
def CACHE_DEFAULT : Nat := 1800

/-- `BACKOFF_DEFAULT = 10` (`server.py`): the intended default reply
backoff ceiling.  Note the assignment `self.max_backoff = BACKOFF_DEFAULT`
in `SSDPHandler.__init__` runs only *after*
`SocketServer.BaseRequestHandler.__init__` has already invoked
`self.handle()`, so this default is never visible to `handle`. -/
def BACKOFF_DEFAULT : Int := 10

/-! ## `SSDPHandler.handle` / `SSDPHandler._send_reply` -/

/-- The handler's mutable state while looping over header lines:
`dial_search` and the `max_backoff` attribute.  `maxBackoff = none` models
the attribute being unset (reading it then raises `AttributeError`,
because the default is assigned only after `handle` has run). -/
structure LoopState where
  dialSearch : Bool
  maxBackoff : Option Int
  deriving DecidableEq

/-- One iteration of the `for line in data[1:]` loop of
`SSDPHandler.handle`.  `none` models the uncaught `ValueError` raised by
unpacking `line.split(':', 1)` when the line has no colon. -/
def processLine (st : LoopState) (line : List Char) : Option LoopState :=
  match splitFirstColon line with
  | none => none
  | some (field, val) =>
    if stripList field = "ST".data ∧ stripList val = SSDP_NT.data then
      some { st with dialSearch := true }
    else if stripList field = "MX".data then
      match parseIntPy (stripList val) with
      | some n => some { st with maxBackoff := some n }
      | none => some st
    else
      some st

/-- The whole header loop; stops at the first line that raises. -/
def runLines (st : LoopState) : List (List Char) → Option LoopState
  | [] => some st
  | l :: ls =>
    match processLine st l with
    | none => none
    | some st' => runLines st' ls

/-- Outcome of one `SSDPHandler.handle` invocation.

* `ignored`: the handler returned without sending (first line mismatch, or
  no matching `ST` header).
* `lineError`: a header line without `':'` made the tuple unpacking raise
  `ValueError`; nothing was sent.
* `attrError`: `_send_reply` was entered but `self.max_backoff` was never
  assigned, so reading it raises `AttributeError`; nothing was sent.
* `replyWith mb`: `_send_reply` was entered with `self.max_backoff = mb`.
  For `mb ≥ 0` it sleeps `random.randint(0, mb)` seconds and sends the
  reply to the requester's address; for `mb < 0`, `randint` raises
  `ValueError` and nothing is sent. -/
inductive HandleOutcome
  | ignored
  | lineError
  | attrError
  | replyWith (mb : Int)
  deriving DecidableEq

/-- `SSDPHandler.handle`: strip the datagram, split it on CRLF, compare
the first chunk against `UPNP_SEARCH`, fold the remaining lines, and call
`_send_reply` iff `dial_search` was set. -/
def handleModel (raw : String) : HandleOutcome :=
  match splitCRLF (stripList raw.data) with
  | [] => .ignored
  | first :: rest =>
    if first = UPNP_SEARCH.data then
      match runLines { dialSearch := false, maxBackoff := none } rest with
      | none => .lineError
      | some st =>
        if st.dialSearch then
          match st.maxBackoff with
          | some mb => .replyWith mb
          | none => .attrError
        else .ignored
    else .ignored

/-- The `while sent < len(reply_data): sent += _socket.sendto(...)` loop of
`_send_reply`, counting `sendto` calls.  UDP `sendto` transmits the whole
datagram and returns its full byte length, so each call adds `replyLen`. -/
def sendLoopCalls (replyLen sent : Nat) : Nat :=
  if sent < replyLen then 1 + sendLoopCalls replyLen (sent + replyLen) else 0
  termination_by replyLen - sent
  decreasing_by simp_wf; omega

/-- Number of reply datagrams a handler outcome causes, for a reply of
`replyLen` bytes: only `replyWith mb` with `0 ≤ mb` reaches the send loop
(`random.randint(0, mb)` raises `ValueError` for `mb < 0`). -/
def repliesSent (replyLen : Nat) : HandleOutcome → Nat
  | .replyWith mb => if 0 ≤ mb then sendLoopCalls replyLen 0 else 0
  | _ => 0

/-- Does a header line set `dial_search` in `handle`: it splits on a colon
into field `ST` (after stripping) with value stripping to `SSDP_NT`. -/
def isSTMatch (line : List Char) : Bool :=
  match splitFirstColon line with
  | some (f, v) => stripList f = "ST".data && stripList v = SSDP_NT.data
  | none => false

/-- The `MX` values of a line list that `handle` successfully parses, in
order: lines whose field strips to `MX` and whose stripped value parses as
an integer. -/
def parsedMXs (lines : List (List Char)) : List Int :=
  lines.filterMap (fun l =>
    match splitFirstColon l with
    | some (f, v) =>
      if stripList f = "MX".data then parseIntPy (stripList v) else none
    | none => none)

/-- The raw first line of a datagram, before any stripping: the head of
its CRLF split. -/
def rawFirstLine (raw : String) : List Char :=
  (splitCRLF raw.data).headD []

/-! ## `SSDP_REPLY` (message template) and its re-parse -/

/-- `SSDP_REPLY.format(...)`: the Search-Reply wire string, with the
template's slots filled and the fixed search target baked into the `ST`
line, exactly as in the source template. -/
def SSDP_REPLY_format (ddd_url max_age os_name os_version product_name
    product_version usn date : String) : String :=
  "HTTP/1.1 200 OK" ++ "\r\n" ++
  ("LOCATION: " ++ ddd_url) ++ "\r\n" ++
  ("CACHE-CONTROL: max-age=" ++ max_age) ++ "\r\n" ++
  "EXT:" ++ "\r\n" ++
  "BOOTID.UPNP.ORG: 1" ++ "\r\n" ++
  ("SERVER: " ++ os_name ++ "/" ++ os_version ++ " UPnP/1.1 " ++
    product_name ++ "/" ++ product_version) ++ "\r\n" ++
  ("ST: " ++ SSDP_NT) ++ "\r\n" ++
  ("DATE: " ++ date) ++ "\r\n" ++
  ("USN: " ++ usn) ++ "\r\n" ++ "\r\n"

/-- Re-parse of a message's lines as described by the round-trip property:
split each line on the first `':'`, trim whitespace on both sides of field
and value, and return the value of the first line whose field equals
`name` (lines without a colon are skipped). -/
def headerValue (name : List Char) : List (List Char) → Option (List Char)
  | [] => none
  | l :: ls =>
    match splitFirstColon l with
    | some (f, v) =>
      if stripList f = name then some (stripList v) else headerValue name ls
    | none => headerValue name ls

/-- A char list unchanged by Python `strip()`: no leading or trailing
whitespace. -/
def isStripped (l : List Char) : Prop :=
  l.dropWhile isPySpace = l ∧ l.reverse.dropWhile isPySpace = l.reverse

instance (l : List Char) : Decidable (isStripped l) := by
  unfold isStripped; infer_instance

/-! ## `SSDPAnnouncerThread` -/

/-- One broadcast datagram of the announcer: an alive or byebye NOTIFY for
one notification type. -/
inductive Msg
  | alive (nt : String)
  | byebye (nt : String)
  deriving DecidableEq

/-- `_sendAll(template, mode)`: `for i in range(0, repeats): for
advertisment in self.advertisments: self._sendOne(...)` — `repeats`
copies of the advertisement list, in order. -/
def sendAllMsgs (mk : String → Msg) (advertisments : List String) :
    Nat → List Msg
  | 0 => []
  | repeats + 1 => advertisments.map mk ++ sendAllMsgs mk advertisments repeats

/-- The alive cycles of `run`'s `while not self.stopping.is_set()` loop,
when the stop signal is observed after `n` iterations. -/
def aliveTrace (advertisments : List String) (repeats : Nat) :
    Nat → List Msg
  | 0 => []
  | n + 1 => sendAllMsgs Msg.alive advertisments repeats ++
      aliveTrace advertisments repeats n

/-- The complete broadcast trace of `SSDPAnnouncerThread.run`: `n` alive
cycles (until `stopping` is observed set at the loop head) followed by one
final `_sendAll(SSDP_BYEBYE, "Byebye")` cycle. -/
def announcerRun (advertisments : List String) (repeats n : Nat) :
    List Msg :=
  aliveTrace advertisments repeats n ++
    sendAllMsgs Msg.byebye advertisments repeats

/-- Default `repeats=3` of `SSDPAnnouncerThread.__init__`. -/
def defaultRepeats : Nat := 3

/-- Default `advertisments=["upnp:rootdevice", SSDP_NT]`. -/
def defaultAdvertisments : List String := ["upnp:rootdevice", SSDP_NT]

/-- Is this message a byebye broadcast for notification type `nt`? -/
def isByebyeOf (nt : String) : Msg → Bool
  | Msg.byebye s => s = nt
  | _ => false

/-- Is this message an alive broadcast (of any type)? -/
def isAliveMsg : Msg → Bool
  | Msg.alive _ => true
  | _ => false

/-! ## `SSDPServer.start` / `SSDPServer.stop` /
`SSDPAnnouncerThread.stop` -/

/-- The announcer thread as seen by `stop()`: only whether it is still
alive matters (`isAlive()`), since `run` sends its byebye cycle exactly
when the thread goes from alive to terminated. -/
structure ThreadState where
  alive : Bool
  deriving DecidableEq

/-- Observable effect of one `SSDPAnnouncerThread.stop()` call:
the new thread state, the number of byebye cycles this call waits for
(via `join`, which returns only after `run`'s final `_sendAll`), and the
number of `join` calls it makes.  `if self.isAlive()` guards everything,
so a dead (or never-started) thread yields a no-op. -/
def threadStop (t : ThreadState) : ThreadState × Nat × Nat :=
  if t.alive then ({ alive := false }, 1, 1) else (t, 0, 0)

/-- `SSDPServer` state relevant to `start`/`stop`: `self.announcer`. -/
structure ServerState where
  announcer : Option ThreadState
  deriving DecidableEq

/-- `SSDPServer.__init__` leaves `self.announcer = None`. -/
def serverInit : ServerState := { announcer := none }

/-- `SSDPServer.start`: `if not self.announcer:` create and start the
announcer thread (then serve forever). -/
def serverStart (s : ServerState) : ServerState :=
  match s.announcer with
  | none => { announcer := some { alive := true } }
  | some _ => s

/-- `SSDPServer.stop`: `if self.announcer:` stop it and clear the field.
Returns the new state, the byebye cycles emitted, and the joins made. -/
def serverStop (s : ServerState) : ServerState × Nat × Nat :=
  match s.announcer with
  | none => (s, 0, 0)
  | some t =>
    let r := threadStop t
    ({ announcer := none }, r.2.1, r.2.2)

/-! ## Helper lemmas -/

theorem handleModel_eq (raw : String) (first : List Char)
    (rest : List (List Char))
    (hsplit : splitCRLF (stripList raw.data) = first :: rest) :
    handleModel raw =
      (if first = UPNP_SEARCH.data then
        match runLines { dialSearch := false, maxBackoff := none } rest with
        | none => HandleOutcome.lineError
        | some st =>
          if st.dialSearch then
            match st.maxBackoff with
            | some mb => HandleOutcome.replyWith mb
            | none => HandleOutcome.attrError
          else HandleOutcome.ignored
      else HandleOutcome.ignored) := by
  unfold handleModel
  rw [hsplit]

theorem mem_sendAllMsgs {mk : String → Msg} {advs : List String}
    {repeats : Nat} {m : Msg} (h : m ∈ sendAllMsgs mk advs repeats) :
    ∃ s, s ∈ advs ∧ m = mk s := by
  induction repeats with
  | zero => cases h
  | succ k ih =>
    simp only [sendAllMsgs, List.mem_append, List.mem_map] at h
    rcases h with ⟨s, hs, rfl⟩ | h
    · exact ⟨s, hs, rfl⟩
    · exact ih h

theorem mem_aliveTrace {advs : List String} {repeats n : Nat} {m : Msg}
    (h : m ∈ aliveTrace advs repeats n) : ∃ s, m = Msg.alive s := by
  induction n with
  | zero => cases h
  | succ k ih =>
    simp only [aliveTrace, List.mem_append] at h
    rcases h with h | h
    · rcases mem_sendAllMsgs h with ⟨s, _, rfl⟩
      exact ⟨s, rfl⟩
    · exact ih h

theorem countP_sendAllMsgs (mk : String → Msg) (p : Msg → Bool)
    (advs : List String) (repeats : Nat) :
    (sendAllMsgs mk advs repeats).countP p =
      repeats * (advs.map mk).countP p := by
  induction repeats with
  | zero => simp [sendAllMsgs]
  | succ k ih =>
    simp only [sendAllMsgs, List.countP_append, ih]
    ring

theorem countP_map_byebye (advs : List String) (nt : String) :
    (advs.map Msg.byebye).countP (isByebyeOf nt) =
      advs.countP (fun s => s = nt) := by
  induction advs with
  | nil => rfl
  | cons a l ih =>
    simp only [List.map_cons, List.countP_cons, ih]
    rfl

theorem not_mem_append' {c : Char} {a b : List Char} (ha : c ∉ a)
    (hb : c ∉ b) : c ∉ a ++ b := by
  intro h
  rcases List.mem_append.mp h with h | h
  · exact ha h
  · exact hb h

theorem not_mem_cons' {c d : Char} {l : List Char} (hcd : c ≠ d)
    (hl : c ∉ l) : c ∉ d :: l := by
  intro h
  rcases List.mem_cons.mp h with h | h
  · exact hcd h
  · exact hl h

theorem sendLoopCalls_one (n : Nat) (h : 0 < n) : sendLoopCalls n 0 = 1 := by
  unfold sendLoopCalls
  rw [if_pos h]
  unfold sendLoopCalls
  rw [if_neg (by omega)]

theorem repliesSent_pos (len : Nat) (mb : Int) (h1 : 0 < len)
    (h2 : 0 ≤ mb) : repliesSent len (.replyWith mb) = 1 := by
  show (if 0 ≤ mb then sendLoopCalls len 0 else 0) = 1
  rw [if_pos h2, sendLoopCalls_one len h1]

theorem splitCRLF_cons₂ (c d : Char) (l : List Char) :
    splitCRLF (c :: d :: l) =
      if c = '\r' ∧ d = '\n' then [] :: splitCRLF l
      else
        match splitCRLF (d :: l) with
        | [] => [[c]]
        | h :: t => (c :: h) :: t := rfl

theorem splitFirstColon_cons (c : Char) (l : List Char) :
    splitFirstColon (c :: l) =
      if c = ':' then some ([], l)
      else
        match splitFirstColon l with
        | none => none
        | some (f, v) => some (c :: f, v) := rfl

theorem headerValue_cons (name l : List Char) (ls : List (List Char)) :
    headerValue name (l :: ls) =
      match splitFirstColon l with
      | some (f, v) =>
        if stripList f = name then some (stripList v)
        else headerValue name ls
      | none => headerValue name ls := rfl

theorem splitCRLF_append (a rest : List Char) (h : '\r' ∉ a) :
    splitCRLF (a ++ '\r' :: '\n' :: rest) = a :: splitCRLF rest := by
  induction a with
  | nil =>
    rw [List.nil_append, splitCRLF_cons₂, if_pos ⟨rfl, rfl⟩]
  | cons c cs ih =>
    have hc : c ≠ '\r' := fun hcc => h (hcc ▸ List.mem_cons_self c cs)
    have hcs : '\r' ∉ cs := fun hm => h (List.mem_cons_of_mem _ hm)
    cases cs with
    | nil =>
      have h2 : splitCRLF ('\r' :: '\n' :: rest) = [] :: splitCRLF rest := by
        rw [splitCRLF_cons₂, if_pos ⟨rfl, rfl⟩]
      simp only [List.nil_append, List.cons_append]
      rw [splitCRLF_cons₂, if_neg (by simp [hc]), h2]
    | cons c2 cs2 =>
      have ihx := ih hcs
      simp only [List.cons_append] at ihx ⊢
      rw [splitCRLF_cons₂, if_neg (by simp [hc]), ihx]

theorem splitFirstColon_append (a b : List Char) (h : ':' ∉ a) :
    splitFirstColon (a ++ ':' :: b) = some (a, b) := by
  induction a with
  | nil =>
    rw [List.nil_append, splitFirstColon_cons, if_pos rfl]
  | cons c cs ih =>
    have hc : c ≠ ':' := fun hcc => h (hcc ▸ List.mem_cons_self c cs)
    have hcs : ':' ∉ cs := fun hm => h (List.mem_cons_of_mem _ hm)
    rw [List.cons_append, splitFirstColon_cons, if_neg hc, ih hcs]

theorem splitFirstColon_eq_none (a : List Char) (h : ':' ∉ a) :
    splitFirstColon a = none := by
  induction a with
  | nil => rfl
  | cons c cs ih =>
    have hc : c ≠ ':' := fun hcc => h (hcc ▸ List.mem_cons_self c cs)
    have hcs : ':' ∉ cs := fun hm => h (List.mem_cons_of_mem _ hm)
    rw [splitFirstColon_cons, if_neg hc, ih hcs]

theorem stripList_eq_self {l : List Char} (h : isStripped l) :
    stripList l = l := by
  unfold stripList
  rw [h.1, h.2, List.reverse_reverse]

theorem stripList_space_cons {l : List Char} (h : isStripped l) :
    stripList (' ' :: l) = l := by
  unfold stripList
  rw [List.dropWhile_cons, if_pos (by decide), h.1, h.2,
    List.reverse_reverse]

theorem headerValue_cons_field (name f v : List Char)
    (ls : List (List Char)) (hf : ':' ∉ f) :
    headerValue name ((f ++ ':' :: v) :: ls) =
      if stripList f = name then some (stripList v)
      else headerValue name ls := by
  rw [headerValue_cons, splitFirstColon_append f v hf]

theorem headerValue_cons_nocolon (name l : List Char)
    (ls : List (List Char)) (h : ':' ∉ l) :
    headerValue name (l :: ls) = headerValue name ls := by
  rw [headerValue_cons, splitFirstColon_eq_none l h]

theorem processLine_eq_nocolon (st : LoopState) {l : List Char}
    (hsp : splitFirstColon l = none) : processLine st l = none := by
  unfold processLine
  rw [hsp]

theorem processLine_eq_some (st : LoopState) {l f v : List Char}
    (hsp : splitFirstColon l = some (f, v)) :
    processLine st l =
      if stripList f = "ST".data ∧ stripList v = SSDP_NT.data then
        some { st with dialSearch := true }
      else if stripList f = "MX".data then
        match parseIntPy (stripList v) with
        | some n => some { st with maxBackoff := some n }
        | none => some st
      else some st := by
  unfold processLine
  rw [hsp]

theorem isSTMatch_eq {l f v : List Char}
    (hsp : splitFirstColon l = some (f, v)) :
    isSTMatch l =
      (decide (stripList f = "ST".data) &&
        decide (stripList v = SSDP_NT.data)) := by
  unfold isSTMatch
  rw [hsp]

theorem processLine_dialSearch_mono {st st1 : LoopState} {l : List Char}
    (hp : processLine st l = some st1) (hd : st.dialSearch = true) :
    st1.dialSearch = true := by
  cases hsp : splitFirstColon l with
  | none => rw [processLine_eq_nocolon st hsp] at hp; cases hp
  | some fv =>
    obtain ⟨f, v⟩ := fv
    rw [processLine_eq_some st hsp] at hp
    by_cases h1 : stripList f = "ST".data ∧ stripList v = SSDP_NT.data
    · rw [if_pos h1] at hp; cases hp; rfl
    · rw [if_neg h1] at hp
      by_cases h2 : stripList f = "MX".data
      · rw [if_pos h2] at hp
        cases hpi : parseIntPy (stripList v) with
        | none => rw [hpi] at hp; cases hp; exact hd
        | some n => rw [hpi] at hp; cases hp; exact hd
      · rw [if_neg h2] at hp; cases hp; exact hd

theorem processLine_of_match (st : LoopState) {l : List Char}
    (h : isSTMatch l = true) :
    processLine st l = some { st with dialSearch := true } := by
  cases hsp : splitFirstColon l with
  | none => unfold isSTMatch at h; rw [hsp] at h; cases h
  | some fv =>
    obtain ⟨f, v⟩ := fv
    rw [isSTMatch_eq hsp, Bool.and_eq_true] at h
    rcases h with ⟨hA, hB⟩
    rw [processLine_eq_some st hsp,
      if_pos ⟨of_decide_eq_true hA, of_decide_eq_true hB⟩]

theorem processLine_not_match {st st1 : LoopState} {l : List Char}
    (hp : processLine st l = some st1) (h : isSTMatch l = false)
    (hd : st.dialSearch = false) : st1.dialSearch = false := by
  cases hsp : splitFirstColon l with
  | none => rw [processLine_eq_nocolon st hsp] at hp; cases hp
  | some fv =>
    obtain ⟨f, v⟩ := fv
    rw [isSTMatch_eq hsp] at h
    rw [processLine_eq_some st hsp] at hp
    have h1 : ¬(stripList f = "ST".data ∧ stripList v = SSDP_NT.data) := by
      intro hx
      rw [decide_eq_true hx.1, decide_eq_true hx.2] at h
      cases h
    rw [if_neg h1] at hp
    by_cases h2 : stripList f = "MX".data
    · rw [if_pos h2] at hp
      cases hpi : parseIntPy (stripList v) with
      | none => rw [hpi] at hp; cases hp; exact hd
      | some n => rw [hpi] at hp; cases hp; exact hd
    · rw [if_neg h2] at hp; cases hp; exact hd

theorem runLines_sticky {ls : List (List Char)} {st st' : LoopState}
    (hrun : runLines st ls = some st')
    (h : st.dialSearch = true ∨ ∃ l ∈ ls, isSTMatch l = true) :
    st'.dialSearch = true := by
  induction ls generalizing st with
  | nil =>
    unfold runLines at hrun
    cases hrun
    rcases h with h | ⟨l, hl, _⟩
    · exact h
    · cases hl
  | cons l ls ih =>
    unfold runLines at hrun
    cases hp : processLine st l with
    | none => rw [hp] at hrun; cases hrun
    | some st1 =>
      rw [hp] at hrun
      rcases h with h | ⟨l2, hl2, hm2⟩
      · exact ih hrun (Or.inl (processLine_dialSearch_mono hp h))
      · rcases List.mem_cons.mp hl2 with rfl | hl2
        · have := processLine_of_match st hm2
          rw [this] at hp
          cases hp
          exact ih hrun (Or.inl rfl)
        · cases hst1 : st1.dialSearch with
          | true => exact ih hrun (Or.inl hst1)
          | false => exact ih hrun (Or.inr ⟨l2, hl2, hm2⟩)

theorem runLines_never_match {ls : List (List Char)} {st st' : LoopState}
    (hrun : runLines st ls = some st')
    (h : ∀ l ∈ ls, isSTMatch l = false) (hd : st.dialSearch = false) :
    st'.dialSearch = false := by
  induction ls generalizing st with
  | nil => unfold runLines at hrun; cases hrun; exact hd
  | cons l ls ih =>
    unfold runLines at hrun
    cases hp : processLine st l with
    | none => rw [hp] at hrun; cases hrun
    | some st1 =>
      rw [hp] at hrun
      exact ih hrun (fun l2 hl2 => h l2 (List.mem_cons_of_mem _ hl2))
        (processLine_not_match hp (h l (List.mem_cons_self l ls)) hd)

theorem getLast?_cons_or (n : Int) (rest : List Int) (m : Option Int) :
    ((n :: rest).getLast?).or m = (rest.getLast?).or (some n) := by
  cases rest with
  | nil => simp [Option.or]
  | cons b l =>
    rw [List.getLast?_cons_cons]
    cases h : (b :: l).getLast? with
    | none => exact absurd (List.getLast?_eq_none_iff.mp h) (by simp)
    | some x => simp [Option.or]

theorem parsedMXs_cons_nocolon {l : List Char} (ls : List (List Char))
    (hsp : splitFirstColon l = none) :
    parsedMXs (l :: ls) = parsedMXs ls := by
  unfold parsedMXs
  rw [List.filterMap_cons, hsp]

theorem parsedMXs_cons_some {l f v : List Char} (ls : List (List Char))
    (hsp : splitFirstColon l = some (f, v)) :
    parsedMXs (l :: ls) =
      if stripList f = "MX".data then
        match parseIntPy (stripList v) with
        | some n => n :: parsedMXs ls
        | none => parsedMXs ls
      else parsedMXs ls := by
  unfold parsedMXs
  rw [List.filterMap_cons, hsp]
  dsimp only
  by_cases h : stripList f = "MX".data
  · rw [if_pos h, if_pos h]
    cases hpi : parseIntPy (stripList v) with
    | none => rfl
    | some n => rfl
  · rw [if_neg h, if_neg h]

theorem runLines_maxBackoff {ls : List (List Char)} {st st' : LoopState}
    (hrun : runLines st ls = some st') :
    st'.maxBackoff = ((parsedMXs ls).getLast?).or st.maxBackoff := by
  induction ls generalizing st with
  | nil =>
    unfold runLines at hrun
    cases hrun
    simp [parsedMXs, Option.or]
  | cons l ls ih =>
    unfold runLines at hrun
    cases hsp : splitFirstColon l with
    | none => rw [processLine_eq_nocolon st hsp] at hrun; cases hrun
    | some fv =>
      obtain ⟨f, v⟩ := fv
      rw [processLine_eq_some st hsp] at hrun
      rw [parsedMXs_cons_some ls hsp]
      by_cases h1 : stripList f = "ST".data ∧ stripList v = SSDP_NT.data
      · rw [if_pos h1] at hrun
        dsimp only at hrun
        have hne : ¬stripList f = "MX".data := by
          rw [h1.1]; decide
        have hres := ih hrun
        rw [if_neg hne]
        exact hres
      · rw [if_neg h1] at hrun
        by_cases h2 : stripList f = "MX".data
        · rw [if_pos h2] at hrun
          rw [if_pos h2]
          generalize hpi : parseIntPy (stripList v) = pi at hrun ⊢
          cases pi with
          | none =>
            dsimp only at hrun ⊢
            exact ih hrun
          | some n =>
            dsimp only at hrun ⊢
            have hres := ih hrun
            rw [getLast?_cons_or]
            exact hres
        · rw [if_neg h2] at hrun
          dsimp only at hrun
          rw [if_neg h2]
          exact ih hrun

theorem runLines_eq_none {ls : List (List Char)} (st : LoopState)
    (h : ∃ l ∈ ls, splitFirstColon l = none) :
    runLines st ls = none := by
  induction ls generalizing st with
  | nil => rcases h with ⟨l, hl, _⟩; cases hl
  | cons l ls ih =>
    unfold runLines
    cases hp : processLine st l with
    | none => rfl
    | some st1 =>
      rcases h with ⟨l2, hl2, hm2⟩
      rcases List.mem_cons.mp hl2 with rfl | hl2
      · unfold processLine at hp
        rw [hm2] at hp
        cases hp
      · exact ih st1 ⟨l2, hl2, hm2⟩

/-! ## Claim theorems -/

/-- C1: the claim promises that every canonical search request with a
matching `ST` header gets exactly one reply after a bounded random delay,
with the backoff ceiling defaulting when `MX` is absent.  The code breaks
this: `self.max_backoff = BACKOFF_DEFAULT` runs only after
`BaseRequestHandler.__init__` has already invoked `handle()`, so a
matching request without a parsable `MX` header reaches `_send_reply`
with the attribute unset and dies with `AttributeError` — no reply is
sent.  With an explicit `MX` the reply path works. -/
theorem c1_matching_request_without_mx_crashes :
    handleModel
        "M-SEARCH * HTTP/1.1\r\nST: urn:dial-multiscreen-org:service:dial:1"
      = HandleOutcome.attrError ∧
    repliesSent 170 HandleOutcome.attrError = 0 ∧
    handleModel
        "M-SEARCH * HTTP/1.1\r\nST: urn:dial-multiscreen-org:service:dial:1\r\nMX: 3"
      = HandleOutcome.replyWith 3 := by
  refine ⟨by decide, rfl, by decide⟩

/-- C2 counterexample: a datagram whose raw first line is empty (the
payload starts with CRLF) is still answered, because `handle` strips the
whole datagram before splitting.  The claim as stated — raw first line
not exactly the canonical search line implies zero outbound datagrams —
is therefore false at this input. -/
theorem c2_leading_crlf_gets_reply :
    rawFirstLine
        "\r\nM-SEARCH * HTTP/1.1\r\nST: urn:dial-multiscreen-org:service:dial:1\r\nMX: 0"
      ≠ UPNP_SEARCH.data ∧
    handleModel
        "\r\nM-SEARCH * HTTP/1.1\r\nST: urn:dial-multiscreen-org:service:dial:1\r\nMX: 0"
      = HandleOutcome.replyWith 0 ∧
    repliesSent 170
        (handleModel
          "\r\nM-SEARCH * HTTP/1.1\r\nST: urn:dial-multiscreen-org:service:dial:1\r\nMX: 0")
      = 1 := by
  refine ⟨by decide, by decide, ?_⟩
  rw [show handleModel
      "\r\nM-SEARCH * HTTP/1.1\r\nST: urn:dial-multiscreen-org:service:dial:1\r\nMX: 0"
      = HandleOutcome.replyWith 0 from by decide]
  exact repliesSent_pos 170 0 (by omega) (by omega)

/-- C2 amended: if the first line of the *whitespace-stripped* datagram is
not exactly `M-SEARCH * HTTP/1.1`, the handler returns immediately and
zero outbound datagrams are sent, with no partial processing and no error. -/
theorem c2_stripped_first_line_mismatch_no_reply (raw : String) (len : Nat)
    (h : (splitCRLF (stripList raw.data)).headD [] ≠ UPNP_SEARCH.data) :
    handleModel raw = HandleOutcome.ignored ∧
    repliesSent len (handleModel raw) = 0 := by
  have hm : handleModel raw = HandleOutcome.ignored := by
    cases hsp : splitCRLF (stripList raw.data) with
    | nil => unfold handleModel; rw [hsp]
    | cons first rest =>
      rw [hsp] at h
      rw [handleModel_eq raw first rest hsp, if_neg (by simpa using h)]
  exact ⟨hm, by rw [hm]; rfl⟩

/-- Witness for the C2 amended theorem at a concrete non-matching
datagram. -/
theorem c2_stripped_first_line_mismatch_no_reply_witness :
    handleModel "NOTIFY * HTTP/1.1\r\nST: x" = HandleOutcome.ignored ∧
    repliesSent 1 (handleModel "NOTIFY * HTTP/1.1\r\nST: x") = 0 :=
  c2_stripped_first_line_mismatch_no_reply "NOTIFY * HTTP/1.1\r\nST: x" 1
    (by decide)

/-- C3: the claim (and the source's own comment above `BACKOFF_DEFAULT`)
says an absent or unparsable `MX` falls back to the configured default
backoff.  In the code the fallback assignment happens after `handle()`
has already run, so a matching request whose `MX` does not parse crashes
with `AttributeError` in `_send_reply` instead of replying after at most
the default backoff; a parsable `MX` works. -/
theorem c3_unparsable_mx_uses_no_default :
    handleModel
        "M-SEARCH * HTTP/1.1\r\nST: urn:dial-multiscreen-org:service:dial:1\r\nMX: abc"
      = HandleOutcome.attrError ∧
    handleModel
        "M-SEARCH * HTTP/1.1\r\nST: urn:dial-multiscreen-org:service:dial:1\r\nMX: 2"
      = HandleOutcome.replyWith 2 := by
  refine ⟨by decide, by decide⟩

/-- C4 counterexample: with the default `repeats=3` and default
advertisement list, the final byebye cycle broadcasts each advertisement
type three times, not exactly once as the claim states. -/
theorem c4_byebye_count_is_repeats_not_one :
    (announcerRun defaultAdvertisments defaultRepeats 0).countP
        (isByebyeOf "upnp:rootdevice") = 3 ∧
    (announcerRun defaultAdvertisments defaultRepeats 0).countP
        (isByebyeOf "upnp:rootdevice") ≠ 1 := by
  refine ⟨by decide, by decide⟩

/-- C4 amended: after the stop signal is observed, the very last
broadcasts are one byebye cycle containing exactly `repeats` (default 3)
Byebye-Announce datagrams per advertisement type, every broadcast before
that cycle is an Alive-Announce, and no Alive-Announce occurs in the
final cycle. -/
theorem c4_announcer_final_byebye (advertisments : List String)
    (repeats n : Nat) (nt : String) :
    (∀ m ∈ aliveTrace advertisments repeats n, isAliveMsg m = true) ∧
    (∀ m ∈ sendAllMsgs Msg.byebye advertisments repeats,
      isAliveMsg m = false) ∧
    (announcerRun advertisments repeats n).countP (isByebyeOf nt) =
      repeats * advertisments.countP (fun s => s = nt) := by
  refine ⟨?_, ?_, ?_⟩
  · intro m hm
    rcases mem_aliveTrace hm with ⟨s, rfl⟩
    rfl
  · intro m hm
    rcases mem_sendAllMsgs hm with ⟨s, _, rfl⟩
    rfl
  · unfold announcerRun
    rw [List.countP_append]
    have hzero : (aliveTrace advertisments repeats n).countP
        (isByebyeOf nt) = 0 := by
      rw [List.countP_eq_zero]
      intro m hm
      rcases mem_aliveTrace hm with ⟨s, rfl⟩
      simp [isByebyeOf]
    rw [hzero, countP_sendAllMsgs, countP_map_byebye, Nat.zero_add]

/-- C5 counterexample: a header line without a colon does not lead to the
silent "not applicable" outcome the claim describes; the tuple unpacking
of `line.split(':', 1)` raises an uncaught `ValueError` (no reply is
sent, but an error is raised). -/
theorem c5_colonless_line_raises :
    handleModel "M-SEARCH * HTTP/1.1\r\nnocolon" =
      HandleOutcome.lineError ∧
    HandleOutcome.lineError ≠ HandleOutcome.ignored := by
  refine ⟨by decide, by decide⟩

/-- C5 amended: a frame with the canonical first line but containing any
header line that cannot be split on `':'` makes the handler raise
`ValueError` (rather than silently ignoring the frame); no reply datagram
is sent either way.  Frames with a non-canonical first line are silently
ignored (see the C2 theorem). -/
theorem c5_malformed_no_reply (raw : String) (rest : List (List Char))
    (len : Nat)
    (hsplit : splitCRLF (stripList raw.data) = UPNP_SEARCH.data :: rest)
    (hbad : ∃ l ∈ rest, splitFirstColon l = none) :
    handleModel raw = HandleOutcome.lineError ∧
    repliesSent len (handleModel raw) = 0 := by
  have hm : handleModel raw = HandleOutcome.lineError := by
    rw [handleModel_eq raw _ rest hsplit, if_pos rfl,
      runLines_eq_none { dialSearch := false, maxBackoff := none } hbad]
  exact ⟨hm, by rw [hm]; rfl⟩

/-- Witness for the C5 amended theorem at a concrete malformed frame. -/
theorem c5_malformed_no_reply_witness :
    handleModel "M-SEARCH * HTTP/1.1\r\ngood: 1\r\nnocolon" =
      HandleOutcome.lineError ∧
    repliesSent 5
      (handleModel "M-SEARCH * HTTP/1.1\r\ngood: 1\r\nnocolon") = 0 :=
  c5_malformed_no_reply "M-SEARCH * HTTP/1.1\r\ngood: 1\r\nnocolon"
    ["good: 1".data, "nocolon".data] 5 (by decide) (by decide)

/-- C6: if no header line of the (stripped, split) datagram is an `ST`
line whose trimmed value equals the fixed search target, zero reply
datagrams are sent, regardless of the other headers. -/
theorem c6_no_st_match_no_reply (raw : String) (len : Nat)
    (h : ∀ l ∈ (splitCRLF (stripList raw.data)).tail,
      isSTMatch l = false) :
    repliesSent len (handleModel raw) = 0 := by
  cases hsp : splitCRLF (stripList raw.data) with
  | nil =>
    have hm : handleModel raw = HandleOutcome.ignored := by
      unfold handleModel; rw [hsp]
    rw [hm]; rfl
  | cons first rest =>
    rw [hsp] at h
    simp only [List.tail_cons] at h
    by_cases hf : first = UPNP_SEARCH.data
    · cases hrun :
        runLines { dialSearch := false, maxBackoff := none } rest with
      | none =>
        have hm : handleModel raw = HandleOutcome.lineError := by
          rw [handleModel_eq raw first rest hsp, if_pos hf, hrun]
        rw [hm]; rfl
      | some st =>
        have hd : st.dialSearch = false := runLines_never_match hrun h rfl
        have hm : handleModel raw = HandleOutcome.ignored := by
          rw [handleModel_eq raw first rest hsp, if_pos hf, hrun]
          dsimp only
          rw [if_neg (by simp [hd])]
        rw [hm]; rfl
    · have hm : handleModel raw = HandleOutcome.ignored := by
        rw [handleModel_eq raw first rest hsp, if_neg hf]
      rw [hm]; rfl

/-- Witness for C6 at a concrete request with a different search target. -/
theorem c6_no_st_match_no_reply_witness :
    repliesSent 1
      (handleModel
        "M-SEARCH * HTTP/1.1\r\nST: some-other-service\r\nMX: 3") = 0 :=
  c6_no_st_match_no_reply
    "M-SEARCH * HTTP/1.1\r\nST: some-other-service\r\nMX: 3" 1 (by decide)

/-- C7 counterexample: `MX: -5` parses (`int` accepts a sign) and is used
as the backoff ceiling, so the produced max-wait is a negative integer —
not an integer ≥ 0 — and `random.randint(0, -5)` then raises, so no
datagram goes out; while an unparsable `MX` is not replaced by the
configured default but leaves the attribute unset (AttributeError). -/
theorem c7_negative_mx_accepted :
    handleModel
        "M-SEARCH * HTTP/1.1\r\nST: urn:dial-multiscreen-org:service:dial:1\r\nMX: -5"
      = HandleOutcome.replyWith (-5) ∧
    (-5 : Int) < 0 ∧
    repliesSent 170 (HandleOutcome.replyWith (-5)) = 0 ∧
    handleModel
        "M-SEARCH * HTTP/1.1\r\nST: urn:dial-multiscreen-org:service:dial:1\r\nMX: x"
      = HandleOutcome.attrError := by
  refine ⟨by decide, by decide, by decide, by decide⟩

/-- C7 amended: the max-wait the header loop produces is exactly the
*last* `MX` value that parses as an integer — of any sign, negatives
included — and when no `MX` line parses it stays unset (no default is
substituted during handling); a matching request then ends in
`AttributeError` rather than a reply. -/
theorem c7_max_backoff_is_last_parsed_mx (raw : String)
    (rest : List (List Char)) (st : LoopState)
    (hsplit : splitCRLF (stripList raw.data) = UPNP_SEARCH.data :: rest)
    (hrun : runLines { dialSearch := false, maxBackoff := none } rest =
      some st) :
    st.maxBackoff = (parsedMXs rest).getLast? ∧
    (st.dialSearch = true →
      handleModel raw =
        (match (parsedMXs rest).getLast? with
         | some mb => HandleOutcome.replyWith mb
         | none => HandleOutcome.attrError)) := by
  have hmb : st.maxBackoff = (parsedMXs rest).getLast? := by
    have := runLines_maxBackoff hrun
    rwa [Option.or_none] at this
  refine ⟨hmb, fun hd => ?_⟩
  rw [handleModel_eq raw _ rest hsplit, if_pos rfl, hrun]
  dsimp only
  rw [if_pos hd, hmb]

/-- Witness for the C7 amended theorem: two `MX` lines, the last one
wins. -/
theorem c7_max_backoff_is_last_parsed_mx_witness :
    (⟨true, some 2⟩ : LoopState).maxBackoff =
      (parsedMXs
        ["MX: 7".data,
         "ST: urn:dial-multiscreen-org:service:dial:1".data,
         "MX: 2".data]).getLast? ∧
    ((⟨true, some 2⟩ : LoopState).dialSearch = true →
      handleModel
          "M-SEARCH * HTTP/1.1\r\nMX: 7\r\nST: urn:dial-multiscreen-org:service:dial:1\r\nMX: 2"
        = (match
            (parsedMXs
              ["MX: 7".data,
               "ST: urn:dial-multiscreen-org:service:dial:1".data,
               "MX: 2".data]).getLast? with
           | some mb => HandleOutcome.replyWith mb
           | none => HandleOutcome.attrError)) :=
  c7_max_backoff_is_last_parsed_mx
    "M-SEARCH * HTTP/1.1\r\nMX: 7\r\nST: urn:dial-multiscreen-org:service:dial:1\r\nMX: 2"
    ["MX: 7".data,
     "ST: urn:dial-multiscreen-org:service:dial:1".data,
     "MX: 2".data]
    ⟨true, some 2⟩ (by decide) (by decide)

/-- C8: stopping the server is idempotent.  The first `stop()` after a
`start()` joins the announcer once and observes exactly one byebye cycle;
a second `stop()` finds `self.announcer` cleared, performs no join, emits
no byebye, and leaves the state unchanged; `stop()` without a prior
`start()` is a complete no-op; and even calling the thread-level `stop()`
twice performs no second join because `isAlive()` is then false. -/
theorem c8_stop_idempotent :
    (serverStop (serverStart serverInit)).2.1 = 1 ∧
    (serverStop (serverStop (serverStart serverInit)).1).2.1 = 0 ∧
    (serverStop (serverStop (serverStart serverInit)).1).2.2 = 0 ∧
    (serverStop (serverStop (serverStart serverInit)).1).1 =
      (serverStop (serverStart serverInit)).1 ∧
    serverStop serverInit = (serverInit, 0, 0) ∧
    (threadStop (threadStop { alive := true }).1).2.2 = 0 := by
  decide

/-- C9: formatting a Search-Reply from the field values and re-parsing
its lines (split each line on the first `':'`, trim whitespace on both
sides) recovers the LOCATION and USN values originally supplied and the
fixed search target from the baked-in `ST` line — provided the
substituted values contain no carriage return (which would corrupt the
line structure) and the LOCATION/USN values carry no surrounding
whitespace (which trimming would remove). -/
theorem c9_reply_roundtrip (ddd_url max_age os_name os_version
    product_name product_version usn date : String)
    (hu : isStripped ddd_url.data) (hn : isStripped usn.data)
    (h1 : '\r' ∉ ddd_url.data) (h2 : '\r' ∉ max_age.data)
    (h3 : '\r' ∉ os_name.data) (h4 : '\r' ∉ os_version.data)
    (h5 : '\r' ∉ product_name.data) (h6 : '\r' ∉ product_version.data)
    (h7 : '\r' ∉ usn.data) (h8 : '\r' ∉ date.data) :
    headerValue "LOCATION".data
        (splitCRLF (SSDP_REPLY_format ddd_url max_age os_name os_version
          product_name product_version usn date).data) =
      some ddd_url.data ∧
    headerValue "USN".data
        (splitCRLF (SSDP_REPLY_format ddd_url max_age os_name os_version
          product_name product_version usn date).data) =
      some usn.data ∧
    headerValue "ST".data
        (splitCRLF (SSDP_REPLY_format ddd_url max_age os_name os_version
          product_name product_version usn date).data) =
      some SSDP_NT.data := by
  have dCRLF : ("\r\n" : String).data = ['\r', '\n'] := by decide
  have dLOC : ("LOCATION: " : String).data =
      ("LOCATION" : String).data ++ [':', ' '] := by decide
  have dCACHE : ("CACHE-CONTROL: max-age=" : String).data =
      ("CACHE-CONTROL" : String).data ++ ':' :: (" max-age=" : String).data := by
    decide
  have dEXT : ("EXT:" : String).data =
      ("EXT" : String).data ++ [':'] := by decide
  have dBOOT : ("BOOTID.UPNP.ORG: 1" : String).data =
      ("BOOTID.UPNP.ORG" : String).data ++ ':' :: (" 1" : String).data := by
    decide
  have dSERVER : ("SERVER: " : String).data =
      ("SERVER" : String).data ++ [':', ' '] := by decide
  have dST : ("ST: " : String).data =
      ("ST" : String).data ++ [':', ' '] := by decide
  have dDATE : ("DATE: " : String).data =
      ("DATE" : String).data ++ [':', ' '] := by decide
  have dUSN : ("USN: " : String).data =
      ("USN" : String).data ++ [':', ' '] := by decide
  have e : (SSDP_REPLY_format ddd_url max_age os_name os_version
      product_name product_version usn date).data =
      ("HTTP/1.1 200 OK" : String).data ++ '\r' :: '\n' ::
      (("LOCATION" : String).data ++ ':' :: (' ' :: ddd_url.data) ++ '\r' :: '\n' ::
      (("CACHE-CONTROL" : String).data ++ ':' ::
          ((" max-age=" : String).data ++ max_age.data) ++ '\r' :: '\n' ::
      (("EXT" : String).data ++ ':' :: [] ++ '\r' :: '\n' ::
      (("BOOTID.UPNP.ORG" : String).data ++ ':' :: (" 1" : String).data ++ '\r' :: '\n' ::
      (("SERVER" : String).data ++ ':' :: (' ' :: (os_name.data ++
          (("/" : String).data ++ (os_version.data ++
          ((" UPnP/1.1 " : String).data ++ (product_name.data ++
          (("/" : String).data ++ product_version.data))))))) ++ '\r' :: '\n' ::
      (("ST" : String).data ++ ':' :: (' ' :: SSDP_NT.data) ++ '\r' :: '\n' ::
      (("DATE" : String).data ++ ':' :: (' ' :: date.data) ++ '\r' :: '\n' ::
      (("USN" : String).data ++ ':' :: (' ' :: usn.data) ++ '\r' :: '\n' ::
      ('\r' :: '\n' :: []))))))))) := by
    simp only [SSDP_REPLY_format, String.data_append, dCRLF, dLOC, dCACHE,
      dEXT, dBOOT, dSERVER, dST, dDATE, dUSN, List.append_assoc,
      List.cons_append, List.nil_append]
  have hl1 : '\r' ∉ ("LOCATION" : String).data ++ ':' :: (' ' :: ddd_url.data) :=
    not_mem_append' (by decide) (not_mem_cons' (by decide)
      (not_mem_cons' (by decide) h1))
  have hl2 : '\r' ∉ ("CACHE-CONTROL" : String).data ++ ':' ::
      ((" max-age=" : String).data ++ max_age.data) :=
    not_mem_append' (by decide) (not_mem_cons' (by decide)
      (not_mem_append' (by decide) h2))
  have hl5 : '\r' ∉ ("SERVER" : String).data ++ ':' :: (' ' :: (os_name.data ++
      (("/" : String).data ++ (os_version.data ++
      ((" UPnP/1.1 " : String).data ++ (product_name.data ++
      (("/" : String).data ++ product_version.data))))))) :=
    not_mem_append' (by decide) (not_mem_cons' (by decide)
      (not_mem_cons' (by decide) (not_mem_append' h3
        (not_mem_append' (by decide) (not_mem_append' h4
          (not_mem_append' (by decide) (not_mem_append' h5
            (not_mem_append' (by decide) h6))))))))
  have hl6 : '\r' ∉ ("ST" : String).data ++ ':' :: (' ' :: SSDP_NT.data) :=
    not_mem_append' (by decide) (not_mem_cons' (by decide)
      (not_mem_cons' (by decide) (by decide)))
  have hl7 : '\r' ∉ ("DATE" : String).data ++ ':' :: (' ' :: date.data) :=
    not_mem_append' (by decide) (not_mem_cons' (by decide)
      (not_mem_cons' (by decide) h8))
  have hl8 : '\r' ∉ ("USN" : String).data ++ ':' :: (' ' :: usn.data) :=
    not_mem_append' (by decide) (not_mem_cons' (by decide)
      (not_mem_cons' (by decide) h7))
  have hsplit : splitCRLF (SSDP_REPLY_format ddd_url max_age os_name
      os_version product_name product_version usn date).data =
      [("HTTP/1.1 200 OK" : String).data,
       ("LOCATION" : String).data ++ ':' :: (' ' :: ddd_url.data),
       ("CACHE-CONTROL" : String).data ++ ':' ::
         ((" max-age=" : String).data ++ max_age.data),
       ("EXT" : String).data ++ ':' :: [],
       ("BOOTID.UPNP.ORG" : String).data ++ ':' :: (" 1" : String).data,
       ("SERVER" : String).data ++ ':' :: (' ' :: (os_name.data ++
         (("/" : String).data ++ (os_version.data ++
         ((" UPnP/1.1 " : String).data ++ (product_name.data ++
         (("/" : String).data ++ product_version.data))))))),
       ("ST" : String).data ++ ':' :: (' ' :: SSDP_NT.data),
       ("DATE" : String).data ++ ':' :: (' ' :: date.data),
       ("USN" : String).data ++ ':' :: (' ' :: usn.data),
       [], []] := by
    rw [e]
    rw [splitCRLF_append _ _ (by decide), splitCRLF_append _ _ hl1,
      splitCRLF_append _ _ hl2, splitCRLF_append _ _ (by decide),
      splitCRLF_append _ _ (by decide), splitCRLF_append _ _ hl5,
      splitCRLF_append _ _ hl6, splitCRLF_append _ _ hl7,
      splitCRLF_append _ _ hl8]
    rfl
  refine ⟨?_, ?_, ?_⟩
  · rw [hsplit, headerValue_cons_nocolon _ _ _ (by decide),
      headerValue_cons_field _ _ _ _ (by decide), if_pos (by decide),
      stripList_space_cons hu]
  · rw [hsplit, headerValue_cons_nocolon _ _ _ (by decide),
      headerValue_cons_field _ _ _ _ (by decide), if_neg (by decide),
      headerValue_cons_field _ _ _ _ (by decide), if_neg (by decide),
      headerValue_cons_field _ _ _ _ (by decide), if_neg (by decide),
      headerValue_cons_field _ _ _ _ (by decide), if_neg (by decide),
      headerValue_cons_field _ _ _ _ (by decide), if_neg (by decide),
      headerValue_cons_field _ _ _ _ (by decide), if_neg (by decide),
      headerValue_cons_field _ _ _ _ (by decide), if_neg (by decide),
      headerValue_cons_field _ _ _ _ (by decide), if_pos (by decide),
      stripList_space_cons hn]
  · rw [hsplit, headerValue_cons_nocolon _ _ _ (by decide),
      headerValue_cons_field _ _ _ _ (by decide), if_neg (by decide),
      headerValue_cons_field _ _ _ _ (by decide), if_neg (by decide),
      headerValue_cons_field _ _ _ _ (by decide), if_neg (by decide),
      headerValue_cons_field _ _ _ _ (by decide), if_neg (by decide),
      headerValue_cons_field _ _ _ _ (by decide), if_neg (by decide),
      headerValue_cons_field _ _ _ _ (by decide), if_pos (by decide),
      stripList_space_cons (by decide)]

/-- Witness for C9 at concrete field values. -/
theorem c9_reply_roundtrip_witness :
    headerValue "LOCATION".data
        (splitCRLF (SSDP_REPLY_format "http://10.0.0.5:8008/dd.xml" "1800"
          "Linux" "4.4" "PyDial Server" "0.01" "uuid:1234"
          "Monday, 01 January 2024 00:00:00 GMT").data) =
      some ("http://10.0.0.5:8008/dd.xml" : String).data ∧
    headerValue "USN".data
        (splitCRLF (SSDP_REPLY_format "http://10.0.0.5:8008/dd.xml" "1800"
          "Linux" "4.4" "PyDial Server" "0.01" "uuid:1234"
          "Monday, 01 January 2024 00:00:00 GMT").data) =
      some ("uuid:1234" : String).data ∧
    headerValue "ST".data
        (splitCRLF (SSDP_REPLY_format "http://10.0.0.5:8008/dd.xml" "1800"
          "Linux" "4.4" "PyDial Server" "0.01" "uuid:1234"
          "Monday, 01 January 2024 00:00:00 GMT").data) =
      some SSDP_NT.data :=
  c9_reply_roundtrip "http://10.0.0.5:8008/dd.xml" "1800" "Linux" "4.4"
    "PyDial Server" "0.01" "uuid:1234" "Monday, 01 January 2024 00:00:00 GMT"
    (by decide) (by decide) (by decide) (by decide) (by decide) (by decide)
    (by decide) (by decide) (by decide) (by decide)

/-- C10 counterexample: a well-formed request (every header line has a
colon) with a matching `ST` line but no `MX` header does not get a reply:
the handler reaches `_send_reply` and crashes on the unset `max_backoff`
attribute. -/
theorem c10_match_without_mx_gets_no_reply :
    handleModel
        "M-SEARCH * HTTP/1.1\r\nHOST: 239.255.255.250:1900\r\nST: urn:dial-multiscreen-org:service:dial:1"
      = HandleOutcome.attrError ∧
    repliesSent 170 HandleOutcome.attrError = 0 := by
  refine ⟨by decide, rfl⟩

/-- C10 amended: matching is sticky — if any `ST` header line of a
well-formed canonical search request equals the fixed target, the match
flag ends up set no matter what other `ST` lines say, and provided the
request also carries an `MX` header whose last parsed value is a
nonnegative integer, exactly one reply datagram is sent. -/
theorem c10_sticky_st_match_reply (raw : String)
    (rest : List (List Char)) (st : LoopState) (mb : Int) (len : Nat)
    (hsplit : splitCRLF (stripList raw.data) = UPNP_SEARCH.data :: rest)
    (hrun : runLines { dialSearch := false, maxBackoff := none } rest =
      some st)
    (hmatch : ∃ l ∈ rest, isSTMatch l = true)
    (hmb : st.maxBackoff = some mb) (hnn : 0 ≤ mb) (hlen : 0 < len) :
    st.dialSearch = true ∧
    handleModel raw = HandleOutcome.replyWith mb ∧
    repliesSent len (handleModel raw) = 1 := by
  have hd : st.dialSearch = true := runLines_sticky hrun (Or.inr hmatch)
  have hm : handleModel raw = HandleOutcome.replyWith mb := by
    rw [handleModel_eq raw _ rest hsplit, if_pos rfl, hrun]
    dsimp only
    rw [if_pos hd, hmb]
  refine ⟨hd, hm, ?_⟩
  rw [hm]
  exact repliesSent_pos len mb hlen hnn

/-- Witness for the C10 amended theorem: three `ST` lines, only the
middle one matches, and a reply is still produced. -/
theorem c10_sticky_st_match_reply_witness :
    (⟨true, some 2⟩ : LoopState).dialSearch = true ∧
    handleModel
        "M-SEARCH * HTTP/1.1\r\nST: wrong\r\nST: urn:dial-multiscreen-org:service:dial:1\r\nST: another\r\nMX: 2"
      = HandleOutcome.replyWith 2 ∧
    repliesSent 170
      (handleModel
        "M-SEARCH * HTTP/1.1\r\nST: wrong\r\nST: urn:dial-multiscreen-org:service:dial:1\r\nST: another\r\nMX: 2")
      = 1 :=
  c10_sticky_st_match_reply
    "M-SEARCH * HTTP/1.1\r\nST: wrong\r\nST: urn:dial-multiscreen-org:service:dial:1\r\nST: another\r\nMX: 2"
    ["ST: wrong".data,
     "ST: urn:dial-multiscreen-org:service:dial:1".data,
     "ST: another".data, "MX: 2".data]
    ⟨true, some 2⟩ 2 170 (by decide) (by decide) (by decide) (by decide)
    (by omega) (by omega)
